import Mathlib

/-!
Shallow embedding of the LensAI distributed coordination layer:

* `functions/distributed_lock.py` — `DistributedLock.acquire`, `release`,
  the context-manager protocol, and `is_locked`;
* `functions/rate_limiter.py` — `LIMITS`, `check_rate_limit` and the text
  of its inner `update_rate_limit` (dead code in the source: the decorator
  applied to it raises before any call);
* `functions/cache.py` — `get_cached_digest`, `set_cached_digest`.

Modelling conventions:

* Wall-clock time (Python `time.time()` / naive `datetime` values) is a
  rational number; `timedelta(seconds=s)` is addition of `s`.
* Python `int()` applied to a float is truncation toward zero (`pyInt`).
* A Firestore document read is an `Option` of the document value; a store
  interaction that may fail is a `StoreStatus`: `noDb` models
  `get_firestore_client()` returning `None`, `raised` models any store
  operation raising, `ok doc` a successful round trip.
* Fallible Python functions are total Lean functions returning their
  fail-open value on the failure constructors; totality is the model of
  "no exception escapes to the caller".
-/

namespace LensAI

/-- Python `int()` on a rational: truncation toward zero. -/
def pyInt (q : ℚ) : ℤ := if 0 ≤ q then ⌊q⌋ else ⌈q⌉

/-- Outcome of reaching the backing store for one document of type `α`:
no client at all (`noDb`), an operation raised (`raised`), or a successful
read of the document (`ok`). -/
inductive StoreStatus (α : Type) where
  | noDb
  | raised
  | ok (doc : α)

/-! ## Distributed lock (`functions/distributed_lock.py`) -/

/-- The Firestore document written by `DistributedLock.acquire` into
`locks/{lock_name}_{user_id}`.  `expires_at` is `Option`al so that a record
lacking the field (schema drift) is representable; `acquired_at`
(`SERVER_TIMESTAMP`) plays no role in any decision and is not modelled. -/
structure LockRecord where
  user_id : ℤ
  lock_name : String
  expires_at : Option ℚ
deriving DecidableEq

/-- The validity test both `acquire` and `is_locked` perform on an existing
record: `lock_expires and lock_expires.replace(tzinfo=None) > now`.  A
missing `expires_at` (`None`) is falsy, hence not valid. -/
def lockIsValid (rec : LockRecord) (now : ℚ) : Bool :=
  match rec.expires_at with
  | some e => decide (now < e)
  | none => false

/-- The read-and-check phase of `acquire`: the lock can be taken iff the
document is absent or its record is not currently valid. -/
def acquireCheck (stored : Option LockRecord) (now : ℚ) : Bool :=
  match stored with
  | none => true
  | some rec => !(lockIsValid rec now)

/-- The document `acquire` writes on success:
`{user_id, lock_name, expires_at = now + timedelta(seconds=ttl_seconds)}`. -/
def acquiredRecord (user_id : ℤ) (lock_name : String) (now ttl : ℚ) : LockRecord :=
  ⟨user_id, lock_name, some (now + ttl)⟩

/-- `DistributedLock.acquire` on a reachable store, as one sequential
read-check-write: returns the boolean result and the lock document after the
call.  (In the source the read and the write are two separate store calls,
not a transaction; `racyAcquirePair` below interleaves the two phases.) -/
def acquire (stored : Option LockRecord) (user_id : ℤ) (lock_name : String)
    (now ttl : ℚ) : Bool × Option LockRecord :=
  if acquireCheck stored now then
    (true, some (acquiredRecord user_id lock_name now ttl))
  else
    (false, stored)

/-- The boolean `acquire` returns once store failures are taken into account:
`if not self.db: return True` and `except Exception: return True`. -/
def acquireResult (st : StoreStatus (Option LockRecord)) (user_id : ℤ)
    (lock_name : String) (now ttl : ℚ) : Bool :=
  match st with
  | .noDb => true
  | .raised => true
  | .ok stored => (acquire stored user_id lock_name now ttl).1

/-- `DistributedLock.release`: if a client exists and the delete does not
raise, the document is deleted unconditionally (no owner comparison); with no
client, or when the delete raises, the document is left as it was and the
error is swallowed.  The function is total: release never raises. -/
def release (stored : Option LockRecord) (dbPresent : Bool)
    (deleteRaises : Bool) : Option LockRecord :=
  if !dbPresent then stored
  else if deleteRaises then stored
  else none

/-- `is_locked(lock_name, user_id)`: `False` with no client, on any raise, or
when the document is absent or its record invalid; `True` exactly when a
currently valid record exists. -/
def is_locked (st : StoreStatus (Option LockRecord)) (now : ℚ) : Bool :=
  match st with
  | .noDb => false
  | .raised => false
  | .ok none => false
  | .ok (some rec) => lockIsValid rec now

/-- Error outcome of a `with DistributedLock(...)` block: either
`LockAcquireError` raised by `__enter__`, or an exception of type `ε` raised
by the body and re-raised after `__exit__` ran. -/
inductive WithErr (ε : Type) where
  | lockAcquire
  | body (e : ε)

/-- The context-manager protocol of `DistributedLock` on a reachable store:
`__enter__` calls `acquire` and raises `LockAcquireError` when it returns
`False` (the body never runs, the store is untouched); otherwise the body
runs to its outcome and `__exit__` calls `release` on both the normal and
the exceptional path, after which a body exception propagates.
`deleteRaises` is the outcome of the `lock_ref.delete()` inside that
release: when it raises, release swallows the error and the record stays. -/
def withLock (stored : Option LockRecord) (user_id : ℤ) (lock_name : String)
    (now ttl : ℚ) {ε : Type} (bodyOutcome : Except ε Unit)
    (deleteRaises : Bool) : Except (WithErr ε) Unit × Option LockRecord :=
  match acquire stored user_id lock_name now ttl with
  | (false, s1) => (Except.error WithErr.lockAcquire, s1)
  | (true, s1) =>
      let s2 := release s1 true deleteRaises
      match bodyOutcome with
      | Except.ok _ => (Except.ok (), s2)
      | Except.error e => (Except.error (WithErr.body e), s2)

/-- The interleaving the source admits because `acquire` issues `get` and
`set` as two separate, unguarded store calls: callers `x` and `y` both read,
then both conditionally write, each individual store call being atomic.
Returns both boolean results and the final lock document. -/
def racyAcquirePair (stored : Option LockRecord) (x y : ℤ) (lock_name : String)
    (now ttl : ℚ) : Bool × Bool × Option LockRecord :=
  let cx := acquireCheck stored now
  let cy := acquireCheck stored now
  let s1 := if cx then some (acquiredRecord x lock_name now ttl) else stored
  let s2 := if cy then some (acquiredRecord y lock_name now ttl) else s1
  (cx, cy, s2)

/-! ## Sliding-window rate limiter (`functions/rate_limiter.py`) -/

/-- One entry of the `LIMITS` table: `{'max': ..., 'window': ...}`. -/
structure RateConfig where
  max : ℕ
  window : ℤ
deriving DecidableEq

/-- The rate limit configuration table `LIMITS`. -/
def LIMITS : List (String × RateConfig) :=
  [("news", ⟨5, 300⟩),
   ("search", ⟨10, 60⟩),
   ("ai_chat", ⟨5, 300⟩),
   ("save", ⟨30, 60⟩),
   ("default", ⟨30, 60⟩)]

/-- `LIMITS.get(action, LIMITS["default"])`. -/
def limitFor (action : String) : RateConfig :=
  (LIMITS.lookup action).getD ⟨30, 60⟩

/-- The pruning step of `update_rate_limit`:
`[ts for ts in data.get("timestamps", []) if ts > window_start]`. -/
def pruneTimestamps (tss : List ℚ) (window_start : ℚ) : List ℚ :=
  tss.filter (fun ts => decide (window_start < ts))

/-- Python `min(x :: xs)` for the nonempty timestamp list. -/
def listMin (x : ℚ) (xs : List ℚ) : ℚ :=
  xs.foldl min x

/-- The inner function `update_rate_limit` of `check_rate_limit`, as its
text reads, on the snapshot read inside the transaction (`none` models a
nonexistent document).  Returns Python `(allowed, result)` paired with the
timestamp list written by `transaction.set` — `none` when the function
returns without writing (the deny branch aborts the transaction with no side
effect).  This body is dead code in the source: the decorator applied to it
raises `UnboundLocalError` before any call (see `check_rate_limit` below),
so none of it ever executes. -/
def update_rate_limit (snapshot : Option (List ℚ)) (cfg : RateConfig)
    (now : ℚ) : (Bool × ℤ) × Option (List ℚ) :=
  let window_start := now - (cfg.window : ℚ)
  let timestamps :=
    match snapshot with
    | none => []
    | some l => pruneTimestamps l window_start
  if cfg.max ≤ timestamps.length then
    match timestamps with
    | [] => ((false, cfg.window), none)
    | t :: ts => ((false, pyInt (listMin t ts + (cfg.window : ℚ) - now)), none)
  else
    ((true, (cfg.max : ℤ) - ((timestamps ++ [now]).length : ℤ)),
     some (timestamps ++ [now]))

/-- `check_rate_limit(user_id, action)` as seen by the caller.  The document
routing `rate_limit_{user_id}_{action}` is identity on the model, where `st`
already is that one document.  In the source, `firestore` is a local name of
`check_rate_limit` (it is bound only by the `from google.cloud import
firestore` placed after the inner function), so the decorator line
`@firestore.transactional` raises `UnboundLocalError` before the transaction
is ever created; the `except Exception` branch catches it and returns
`(True, "Error checking limit")`.  Hence with a client present the snapshot
is never read, `update_rate_limit` never runs, nothing is pruned or written,
and the call always fails open. -/
def check_rate_limit (st : StoreStatus (Option (List ℚ))) (_action : String)
    (_now : ℚ) : Bool × String :=
  match st with
  | .noDb => (true, "No database connection")
  | .raised => (true, "Error checking limit")
  | .ok _ => (true, "Error checking limit")

/-- A sequence of limiter calls at the given times against one document.
Because every call with a client raises before reaching the transaction and
writes nothing, the document is the same at every call, so the same store is
threaded to each. -/
def runChecks (st : StoreStatus (Option (List ℚ))) (action : String) :
    List ℚ → List (Bool × String)
  | [] => []
  | t :: ts => check_rate_limit st action t :: runChecks st action ts

/-! ## TTL cache (`functions/cache.py`) -/

/-- The Firestore document `cache/news_digest`.  Both fields are `Option`al:
`data.get("content")` of a document lacking the field is `None`, and
`data.get("expires_at", 0)` defaults a missing field to `0`.  The
`created_at` and `updated_at` fields play no role in any decision and are
not modelled. -/
structure CacheDoc where
  content : Option String
  expires_at : Option ℚ
deriving DecidableEq

/-- `get_cached_digest()`: absent with no client, on any raise, and when the
document does not exist; otherwise the content iff `time.time()` is strictly
below `data.get("expires_at", 0)`.  An expired document is only skipped,
never deleted (the function takes the store by value and writes nothing). -/
def get_cached_digest (st : StoreStatus (Option CacheDoc)) (now : ℚ) :
    Option String :=
  match st with
  | .noDb => none
  | .raised => none
  | .ok none => none
  | .ok (some d) =>
      if now < d.expires_at.getD 0 then d.content else none

/-- `set_cached_digest(digest, ttl_minutes)`: with a client and no raise,
overwrites the document with
`{content = digest, expires_at = time.time() + ttl_minutes * 60}`;
otherwise a silent no-op.  Returns the store as left by the call. -/
def set_cached_digest (st : StoreStatus (Option CacheDoc)) (digest : String)
    (ttl_minutes : ℤ) (now : ℚ) : StoreStatus (Option CacheDoc) :=
  match st with
  | .noDb => .noDb
  | .raised => .raised
  | .ok _ => .ok (some ⟨some digest, some (now + (ttl_minutes : ℚ) * 60)⟩)

/-! ## Helper lemmas -/

/-- The news action is configured as 5 requests per 300-second window. -/
lemma limitFor_news : limitFor "news" = ⟨5, 300⟩ := rfl

/-- Pruning keeps the whole list when every timestamp is strictly above the
window start. -/
lemma pruneTimestamps_eq_self (tss : List ℚ) (ws : ℚ)
    (h : ∀ ts ∈ tss, ws < ts) :
    pruneTimestamps tss ws = tss := by
  simp only [pruneTimestamps, List.filter_eq_self, decide_eq_true_eq]
  exact h

/-- `update_rate_limit` when the pruned list already reaches the limit: the
call is denied with the truncated wait time and nothing is written. -/
lemma update_rate_limit_deny_eq (snapshot : List ℚ) (cfg : RateConfig)
    (now t : ℚ) (ts : List ℚ)
    (hp : pruneTimestamps snapshot (now - (cfg.window : ℚ)) = t :: ts)
    (h : cfg.max ≤ (t :: ts).length) :
    update_rate_limit (some snapshot) cfg now =
      ((false, pyInt (listMin t ts + (cfg.window : ℚ) - now)), none) := by
  simp [update_rate_limit, hp, h]
  simpa using h

/-! ## Theorems -/

/-- C1: the claim states that `DistributedLock.acquire` runs its
read-check-write as a single atomic transaction, so that of two concurrent
calls on the same resource exactly one returns true.  The source instead
issues `lock_ref.get()` and `lock_ref.set(...)` as two separate unguarded
store calls; under the interleaving read-read-write-write on an empty store
— legal when only each individual call is atomic — both callers observe no
valid record and both return true. -/
theorem acquire_get_then_set_race :
    (racyAcquirePair none 1 2 "news_generation_42" 0 300).1 = true ∧
    (racyAcquirePair none 1 2 "news_generation_42" 0 300).2.1 = true := by
  decide

/-- C2: sequential `acquire` on a reachable store: an absent record, or one
whose `expires_at` is at or before now, is overwritten with
`expires_at = now + ttl` and the call returns true; a record with
`expires_at` strictly in the future makes the call return false whoever owns
it; and after a successful acquire with TTL `ttl`, an acquire by a different
owner `ttl` seconds later succeeds (self-healing). -/
theorem acquire_sequential_spec (stored : Option LockRecord) (uid uid2 : ℤ)
    (lname : String) (now ttl : ℚ) :
    ((stored = none ∨ ∃ r e, stored = some r ∧ r.expires_at = some e ∧ e ≤ now) →
      acquire stored uid lname now ttl =
        (true, some (acquiredRecord uid lname now ttl))) ∧
    (∀ r e, stored = some r → r.expires_at = some e → now < e →
      acquire stored uid lname now ttl = (false, stored)) ∧
    (∀ s1, acquire stored uid lname now ttl = (true, s1) →
      (acquire s1 uid2 lname (now + ttl) ttl).1 = true) := by
  refine ⟨?_, ?_, ?_⟩
  · rintro (rfl | ⟨r, e, rfl, he, hle⟩)
    · rfl
    · simp [acquire, acquireCheck, lockIsValid, he, not_lt.mpr hle]
  · rintro r e rfl he hlt
    simp [acquire, acquireCheck, lockIsValid, he, hlt]
  · intro s1 h
    by_cases hc : acquireCheck stored now = true
    · simp only [acquire, hc, if_true, Prod.mk.injEq, true_and] at h
      subst h
      simp [acquire, acquireCheck, lockIsValid, acquiredRecord]
    · simp [acquire, hc] at h

/-- Witness for C2 at concrete inputs: acquire on an empty store, acquire
against a record valid until time 100, and re-acquire by owner 8 exactly
`ttl` seconds after owner 7 succeeded. -/
theorem acquire_sequential_spec_witness :
    (acquire none 7 "news_generation" 0 300 =
      (true, some (acquiredRecord 7 "news_generation" 0 300))) ∧
    (acquire (some ⟨9, "news_generation", some 100⟩) 7 "news_generation" 0 300 =
      (false, some ⟨9, "news_generation", some 100⟩)) ∧
    (acquire (some (acquiredRecord 7 "news_generation" 0 300)) 8
      "news_generation" (0 + 300) 300).1 = true :=
  ⟨(acquire_sequential_spec none 7 8 "news_generation" 0 300).1 (Or.inl rfl),
   (acquire_sequential_spec (some ⟨9, "news_generation", some 100⟩) 7 8
      "news_generation" 0 300).2.1 ⟨9, "news_generation", some 100⟩ 100 rfl rfl
      (by norm_num),
   (acquire_sequential_spec none 7 8 "news_generation" 0 300).2.2
      (some (acquiredRecord 7 "news_generation" 0 300))
      ((acquire_sequential_spec none 7 8 "news_generation" 0 300).1
        (Or.inl rfl))⟩

/-- C5: with the store unreachable (no client) or any store operation
raising, the three primitives degrade fail-open — acquire returns true, the
limiter allows, and the cache reads as absent — and, the model functions
being total, no exception reaches the caller. -/
theorem fail_open_on_store_failure (uid : ℤ) (lname action : String)
    (now ttl : ℚ) :
    (acquireResult StoreStatus.noDb uid lname now ttl = true ∧
     acquireResult StoreStatus.raised uid lname now ttl = true) ∧
    ((check_rate_limit StoreStatus.noDb action now).1 = true ∧
     (check_rate_limit StoreStatus.raised action now).1 = true) ∧
    (get_cached_digest StoreStatus.noDb now = none ∧
     get_cached_digest StoreStatus.raised now = none) :=
  ⟨⟨rfl, rfl⟩, ⟨rfl, rfl⟩, ⟨rfl, rfl⟩⟩

/-- C8: `release` deletes the lock document unconditionally — whatever
record is stored, whoever owns it — and is best-effort: when the delete
raises, or there is no client, the error is swallowed, the store is left
unchanged, and (the function being total) nothing propagates. -/
theorem release_unconditional_best_effort (stored : Option LockRecord)
    (raises : Bool) :
    release stored true false = none ∧
    release stored true true = stored ∧
    release stored false raises = stored :=
  ⟨rfl, rfl, rfl⟩

/-- C9: a stored record lacking `expires_at` is treated as absent and never
crashes: acquire over such a lock record succeeds, `is_locked` on it is
false, and a cache document without `expires_at` (defaulted to 0) reads as
absent at any nonnegative clock. -/
theorem malformed_record_treated_as_absent (uid ouid : ℤ)
    (lname oname : String) (now ttl : ℚ) (c : Option String)
    (hnow : 0 ≤ now) :
    (acquire (some ⟨ouid, oname, none⟩) uid lname now ttl).1 = true ∧
    is_locked (StoreStatus.ok (some ⟨ouid, oname, none⟩)) now = false ∧
    get_cached_digest (StoreStatus.ok (some ⟨c, none⟩)) now = none := by
  refine ⟨?_, rfl, ?_⟩
  · simp [acquire, acquireCheck, lockIsValid]
  · simp only [get_cached_digest, Option.getD_none]
    rw [if_neg (not_lt.mpr hnow)]

/-- Witness for C9: owner 9 holds a record with no `expires_at`; caller 7
acquires over it at time 5, `is_locked` reports false, and a cache document
with content but no expiry reads as absent. -/
theorem malformed_record_treated_as_absent_witness :
    (acquire (some ⟨9, "news_generation", none⟩) 7 "news_generation" 5 300).1
      = true ∧
    is_locked (StoreStatus.ok (some ⟨9, "news_generation", none⟩)) 5 = false ∧
    get_cached_digest (StoreStatus.ok (some ⟨some "stale", none⟩)) 5 = none :=
  malformed_record_treated_as_absent 7 9 "news_generation" "news_generation"
    5 300 (some "stale") (by norm_num)

/-- C4 counterexample: the TTL parameter of the caller-facing cache setter
is in minutes, not seconds.  Setting at time 0 with TTL argument 15 stores
`expires_at = 900`, not set-time + 15. -/
theorem cache_ttl_parameter_is_minutes :
    set_cached_digest (StoreStatus.ok none) "digest" 15 0 =
      StoreStatus.ok (some ⟨some "digest", some 900⟩) ∧
    (900 : ℚ) ≠ 0 + 15 := by
  constructor
  · simp only [set_cached_digest]
    norm_num
  · norm_num

/-- C4 amended: `set_cached_digest(v, ttl_minutes)` stores
`expires_at = set-time + ttl_minutes * 60`; an immediate get returns `v`;
any get at or after that expiry returns absent — the document is merely
skipped, not deleted (`get_cached_digest` takes the store by value and
writes nothing). -/
theorem cache_set_get_ttl (d0 : Option CacheDoc) (v : String) (ttl : ℤ)
    (t_set t_get : ℚ) (httl : 0 < ttl) :
    set_cached_digest (StoreStatus.ok d0) v ttl t_set =
      StoreStatus.ok (some ⟨some v, some (t_set + (ttl : ℚ) * 60)⟩) ∧
    get_cached_digest (set_cached_digest (StoreStatus.ok d0) v ttl t_set)
      t_set = some v ∧
    (t_set + (ttl : ℚ) * 60 ≤ t_get →
      get_cached_digest (set_cached_digest (StoreStatus.ok d0) v ttl t_set)
        t_get = none) := by
  have h1 : (0 : ℚ) < (ttl : ℚ) := by exact_mod_cast httl
  refine ⟨rfl, ?_, ?_⟩
  · simp only [set_cached_digest, get_cached_digest, Option.getD_some]
    rw [if_pos (by linarith)]
  · intro h
    simp only [set_cached_digest, get_cached_digest, Option.getD_some]
    rw [if_neg (not_lt.mpr h)]

/-- Witness for C4 amended: a 15-minute digest set at time 0 is readable
immediately and absent at time 900. -/
theorem cache_set_get_ttl_witness :
    get_cached_digest (set_cached_digest (StoreStatus.ok none) "digest" 15 0)
      0 = some "digest" ∧
    get_cached_digest (set_cached_digest (StoreStatus.ok none) "digest" 15 0)
      900 = none :=
  ⟨(cache_set_get_ttl none "digest" 15 0 900 (by norm_num)).2.1,
   (cache_set_get_ttl none "digest" 15 0 900 (by norm_num)).2.2 (by norm_num)⟩

/-- C10 counterexample: the body exits normally but the delete inside the
release raises (a swallowed best-effort failure): the with-block completes
and the lock record is still stored and still valid afterwards — the
entered lock IS left held, refuting the unqualified never-left-held part of
the claim. -/
theorem with_lock_release_error_leaves_lock :
    (withLock none 1 "news_generation" 0 300
      (Except.ok () : Except Unit Unit) true).2 =
      some (acquiredRecord 1 "news_generation" 0 300) ∧
    is_locked (StoreStatus.ok (withLock none 1 "news_generation" 0 300
      (Except.ok () : Except Unit Unit) true).2) 100 = true := by
  constructor
  · rfl
  · norm_num [withLock, acquire, acquireCheck, release, is_locked,
      lockIsValid, acquiredRecord]

/-- C10 amended: `__enter__` raises `LockAcquireError` exactly when
`acquire` returns false, and `__exit__` calls `release` on the normal and
the exceptional body path alike — the final store is exactly the result of
that release — so the entered lock is not left held whenever the delete
succeeds, while a raising delete is swallowed and leaves the record until
its TTL expiry. -/
theorem with_lock_context_manager {ε : Type} (stored : Option LockRecord)
    (uid : ℤ) (lname : String) (now ttl : ℚ) (bodyOutcome : Except ε Unit)
    (deleteRaises : Bool) :
    ((withLock stored uid lname now ttl bodyOutcome deleteRaises).1 =
        Except.error WithErr.lockAcquire ↔
      (acquire stored uid lname now ttl).1 = false) ∧
    ((acquire stored uid lname now ttl).1 = true →
      (withLock stored uid lname now ttl bodyOutcome deleteRaises).2 =
        release (acquire stored uid lname now ttl).2 true deleteRaises) ∧
    ((acquire stored uid lname now ttl).1 = true → deleteRaises = false →
      (withLock stored uid lname now ttl bodyOutcome deleteRaises).2 =
        none) := by
  by_cases hc : acquireCheck stored now = true <;>
    cases bodyOutcome <;> cases deleteRaises <;>
      simp [withLock, acquire, hc, release]

/-- Witness for C10 amended: a raising body over an empty store with a
succeeding delete: the entered lock is gone on the exceptional exit. -/
theorem with_lock_context_manager_witness :
    (withLock none 1 "news_generation" 0 300
      (Except.error "boom" : Except String Unit) false).2 = none :=
  (with_lock_context_manager none 1 "news_generation" 0 300
    (Except.error "boom") false).2.2 (by decide) rfl

/-- C3: the claim expects the first five news checks within a window to be
allowed with remaining counts and the sixth to be denied with a positive
wait.  In the source the decorator line `@firestore.transactional` raises
`UnboundLocalError` — `firestore` is local to `check_rate_limit`, bound
only by the import placed after the inner function — so every call with a
client returns `(True, "Error checking limit")`: all six calls are
allowed, no remaining count is ever reported, and the sixth is never
denied. -/
theorem rate_limit_sixth_call_not_denied :
    runChecks (StoreStatus.ok none) "news" [0, 60, 120, 180, 240, 299] =
      [(true, "Error checking limit"), (true, "Error checking limit"),
       (true, "Error checking limit"), (true, "Error checking limit"),
       (true, "Error checking limit"), (true, "Error checking limit")] ∧
    (check_rate_limit (StoreStatus.ok (some [0, 60, 120, 180, 240])) "news"
      299).1 = true :=
  ⟨rfl, rfl⟩

/-- C6: the deny branch exists only in the text of the dead inner function:
on a full news window it would deny with a truncated wait and no write —
but the program never reaches it, and at that very input
`check_rate_limit` returns allowed=true with an error message, touching
nothing. -/
theorem rate_limit_deny_branch_unreachable :
    update_rate_limit (some [10, 20, 30, 40, 50]) (limitFor "news") 60 =
      ((false, 250), none) ∧
    check_rate_limit (StoreStatus.ok (some [10, 20, 30, 40, 50])) "news" 60 =
      (true, "Error checking limit") := by
  constructor
  · rw [limitFor_news]
    rw [update_rate_limit_deny_eq _ _ _ 10 [20, 30, 40, 50]
      (pruneTimestamps_eq_self _ _ (by intro x hx; fin_cases hx <;> norm_num))
      (by norm_num)]
    norm_num [listMin, List.foldl_cons, List.foldl_nil, min_def, pyInt]
  · rfl

/-- C7: no pruning executes inside any limiter check and a full count does
not deny: at now = 150 all five stored news timestamps lie in the claimed
window (the filter text would retain all five, a count at the maximum of
5), yet the check is allowed, because the transactional body never runs. -/
theorem rate_limit_count_at_max_still_allowed :
    (pruneTimestamps [100, 110, 120, 130, 140]
      (150 - ((limitFor "news").window : ℚ))).length = 5 ∧
    5 ≤ (limitFor "news").max ∧
    (check_rate_limit (StoreStatus.ok (some [100, 110, 120, 130, 140]))
      "news" 150).1 = true := by
  refine ⟨?_, by norm_num [limitFor_news], rfl⟩
  rw [limitFor_news]
  rw [pruneTimestamps_eq_self _ _ (by intro x hx; fin_cases hx <;> norm_num)]
  rfl

end LensAI
